import Mathlib

/-!
Formal model of the lidar-service berthing core, shallowly embedded from
`src/app/services/fake_lidar.py`, `src/app/services/berthing_data_core.py`,
`src/app/api/endpoints/berthing_data.py` and
`src/app/api/endpoints/connection.py`.

Python floats are modelled as rationals (`ℚ`); Python `round(x, n)` is
modelled as exact round-half-to-even at `n` decimal digits; `bytes` values
are lists of naturals below 256; the nondeterministic inputs of the
simulator (wall-clock time, the random point generator) are passed in as
explicit parameters.
-/

namespace LidarService

/-- Round-half-to-even of a rational to an integer, the tie-breaking rule of
Python `round`. -/
def roundHalfEven (q : ℚ) : ℤ :=
  let f := Int.floor q
  let frac := q - f
  if frac < 1/2 then f
  else if 1/2 < frac then f + 1
  else if f % 2 = 0 then f else f + 1

/-- Model of Python `round(q, n)`: round half to even at `n` decimal digits
(in exact rational arithmetic). -/
def pyRound (q : ℚ) (n : ℕ) : ℚ :=
  (roundHalfEven (q * 10 ^ n) : ℚ) / 10 ^ n

/-! ### Protocol codec (`fake_lidar.py`)

`struct.pack` little-endian fields become explicit byte lists. -/

/-- Little-endian encoding of a natural number into `w` bytes
(`struct.pack` with an unsigned field of width `w`). -/
def leBytes (w : ℕ) (v : ℕ) : List ℕ :=
  (List.range w).map (fun i => v / 256 ^ i % 256)

/-- Little-endian encoding of a signed 32-bit integer (`struct.pack '<i'`),
two's complement. -/
def packI32 (v : ℤ) : List ℕ :=
  leBytes 4 (v % 2 ^ 32).toNat

/-- Header of a fake data packet: `struct.pack('<BBBBLBBQ', 5, 0, 0, 0, 0,
0, 0, timestamp)` from `_create_fake_packet`. The timestamp (nanoseconds
since epoch, from `time.time()`) is a parameter. -/
def fakeHeader (timestamp : ℕ) : List ℕ :=
  leBytes 1 5 ++ leBytes 1 0 ++ leBytes 1 0 ++ leBytes 1 0 ++
  leBytes 4 0 ++ leBytes 1 0 ++ leBytes 1 0 ++ leBytes 8 timestamp

/-- One point record: `struct.pack('<iiiB', x, y, z, intensity)`. -/
def packPoint (p : ℤ × ℤ × ℤ × ℕ) : List ℕ :=
  packI32 p.1 ++ packI32 p.2.1 ++ packI32 p.2.2.1 ++ leBytes 1 p.2.2.2

/-- Model of `_create_fake_packet`: the 18-byte header followed by 100
packed points. The random point generator `_generate_fake_point` is
abstracted as the parameter `pts` (point index to `(x, y, z, intensity)`);
`packet_count` only feeds that generator, so it is folded into `pts`. -/
def createFakePacket (timestamp : ℕ) (pts : ℕ → ℤ × ℤ × ℤ × ℕ) : List ℕ :=
  fakeHeader timestamp ++ (List.range 100).flatMap (fun i => packPoint (pts i))

/-- Constant `_CMD_DATA_START` of `FakeLidarSimulator` (11 bytes). -/
def cmdDataStart : List ℕ :=
  [0xaa, 0x01, 0x14, 0x00, 0x00, 0x00, 0x00, 0xb5, 0xed, 0x01, 0x01]

/-- Constant `_CMD_DATA_STOP` of `FakeLidarSimulator` (11 bytes). -/
def cmdDataStop : List ℕ :=
  [0xaa, 0x01, 0x14, 0x00, 0x00, 0x00, 0x00, 0xb5, 0xed, 0x01, 0x00]

/-- How `_command_listener` reacts to one received datagram. -/
inductive CommandAction where
  | start
  | stop
  | ignore
deriving DecidableEq

/-- Datagram dispatch of `_command_listener`: `len(data) >= 11 and
data[:11] == _CMD_DATA_START[:11]` starts streaming, the analogous test
against `_CMD_DATA_STOP` stops it, anything else is ignored. -/
def classifyCommand (data : List ℕ) : CommandAction :=
  if 11 ≤ data.length ∧ data.take 11 = cmdDataStart.take 11 then .start
  else if 11 ≤ data.length ∧ data.take 11 = cmdDataStop.take 11 then .stop
  else .ignore

/-! ### Device session state machine (`FakeLidarSimulator`)

Sockets and threads are modelled by flags and spawn counters: a
`threading.Thread(...).start()` call increments the corresponding
counter. -/

/-- Observable state of one `FakeLidarSimulator`. -/
structure SimState where
  isConnected : Bool
  isData : Bool
  running : Bool
  commandRunning : Bool
  dataSocketOpen : Bool
  cmdSocketOpen : Bool
  dataThreadsSpawned : ℕ
  commandThreadsSpawned : ℕ
deriving DecidableEq

/-- State of a freshly constructed `FakeLidarSimulator` (its `__init__`). -/
def initSimState : SimState :=
  { isConnected := false, isData := false, running := false,
    commandRunning := false, dataSocketOpen := false, cmdSocketOpen := false,
    dataThreadsSpawned := 0, commandThreadsSpawned := 0 }

/-- Model of `FakeLidarSimulator.connect`: both UDP sockets are created,
then bound inside a `try`; on success (`bindDataOk` and `bindCmdOk`) the
session is marked connected, the command-listener thread is started and
`1` is returned; on any bind failure the `except` branch returns `0`
without touching the already-created sockets. The two booleans stand for
the outcome of the two `bind` calls. -/
def connect (s : SimState) (bindDataOk bindCmdOk : Bool) : ℕ × SimState :=
  let s1 := { s with dataSocketOpen := true, cmdSocketOpen := true }
  if bindDataOk && bindCmdOk then
    (1, { s1 with isConnected := true, commandRunning := true,
                  commandThreadsSpawned := s1.commandThreadsSpawned + 1 })
  else
    (0, s1)

/-- Model of `FakeLidarSimulator.dataStart_RT_B`: returns early when not
connected; otherwise sets `_isData` and `_running` and starts a fresh data
thread, with no check of whether streaming is already active. -/
def dataStart (s : SimState) : SimState :=
  if !s.isConnected then s
  else { s with isData := true, running := true,
                dataThreadsSpawned := s.dataThreadsSpawned + 1 }

/-- Model of `FakeLidarSimulator.dataStop`: clears `_isData` and
`_running` and joins the data thread. -/
def dataStop (s : SimState) : SimState :=
  { s with isData := false, running := false }

/-- Model of `FakeLidarSimulator.disconnect`: clears the run flags, joins
both threads, closes both sockets and marks the session disconnected. -/
def disconnect (s : SimState) : SimState :=
  { s with running := false, commandRunning := false,
           dataSocketOpen := false, cmdSocketOpen := false,
           isConnected := false, isData := false }

/-- One iteration of `_command_listener` on a received datagram: a
recognized start command invokes `dataStart_RT_B`, a recognized stop
command invokes `dataStop`, anything else is ignored. -/
def commandStep (s : SimState) (data : List ℕ) : SimState :=
  match classifyCommand data with
  | .start => dataStart s
  | .stop => dataStop s
  | .ignore => s

/-! ### Berthing data core (`berthing_data_core.py`) -/

/-- Per-sensor `center_stats` dictionary entries read by the core (the
`.get(key, default)` defaults are applied by the caller supplying this
record). -/
structure CenterStats where
  stableDistance : ℚ
  speedMps : ℚ
  speedMmS : ℚ
  instantSpeed : ℚ
  saAveragedSpeed : ℚ
  trendSpeed : ℚ
  speedPrecisionMmS : ℚ
  isVesselMoving : Bool
  movementPhase : String
  speedConfidence : ℚ
deriving DecidableEq

/-- Per-sensor view returned by `fetch_berthing_data_for_sensor` in the
active case. -/
structure SensorView where
  sensorId : String
  timestamp : ℚ
  distance : ℚ
  distanceMm : ℚ
  speed : ℚ
  speedMmS : ℚ
  instantSpeed : ℚ
  instantSpeedMmS : ℚ
  saAveragedSpeed : ℚ
  saAveragedSpeedMmS : ℚ
  trendSpeed : ℚ
  speedPrecisionMmS : ℚ
  isMoving : Bool
  direction : String
  movementPhase : String
  confidence : ℚ
  stableDistance : ℚ
deriving DecidableEq

/-- Result of `fetch_berthing_data_for_sensor`: the three `status` values
`not_found`, `stream_inactive` and `active` of the returned dictionary. -/
inductive FetchResult where
  | notFound (sensorId message : String)
  | streamInactive (sensorId message : String)
  | active (view : SensorView)
deriving DecidableEq

/-- Model of `fetch_berthing_data_for_sensor`. `sensorKnown` stands for
`sensor_id in lidar_manager.sensors`, `streamActive` for
`lidar_manager.stream_active.get(sensor_id, False)`, and `cs` for the
`center_stats` entry of `lidar_manager.sensor_sync_data` (with the
dictionary defaults already applied). -/
def fetchBerthingDataForSensor (sensorId : String) (sensorKnown streamActive : Bool)
    (timestamp : ℚ) (cs : CenterStats) : FetchResult :=
  if !sensorKnown then
    .notFound sensorId ("Sensor " ++ sensorId ++ " not found.")
  else if !streamActive then
    .streamInactive sensorId ("Data stream not active for sensor " ++ sensorId ++ ".")
  else
    let direction :=
      if cs.isVesselMoving then
        if cs.speedMps < 0 then "approaching"
        else if 0 < cs.speedMps then "departing"
        else "lateral"
      else "stationary"
    .active
      { sensorId := sensorId
        timestamp := timestamp
        distance := pyRound cs.stableDistance 3
        distanceMm := pyRound (cs.stableDistance * 1000) 0
        speed := pyRound cs.speedMps 4
        speedMmS := pyRound cs.speedMmS 1
        instantSpeed := pyRound cs.instantSpeed 4
        instantSpeedMmS := pyRound (cs.instantSpeed * 1000) 1
        saAveragedSpeed := pyRound cs.saAveragedSpeed 4
        saAveragedSpeedMmS := pyRound (cs.saAveragedSpeed * 1000) 1
        trendSpeed := pyRound cs.trendSpeed 4
        speedPrecisionMmS := pyRound cs.speedPrecisionMmS 3
        isMoving := cs.isVesselMoving
        direction := direction
        movementPhase := cs.movementPhase
        confidence := pyRound cs.speedConfidence 2
        stableDistance := pyRound cs.stableDistance 3 }

/-- One entry of the `sensors` dictionary built by
`get_all_berthing_data_core`: either the fetched per-sensor view, or the
structured `{"sensor_id": ..., "status": "error", "message": ...}` record
written by the per-sensor `except` handler. -/
inductive AllDataEntry where
  | ok (r : FetchResult)
  | errorRecord (sensorId message : String)
deriving DecidableEq

/-- Inputs of `get_all_berthing_data_core` for one sensor id in
`lidar_manager.berthing_mode_sensors`: its `stream_active` flag and the
outcome of `fetch_berthing_data_for_sensor` for it (`Except.error` when
that call raises). -/
structure AllDataInput where
  sensorId : String
  streamActive : Bool
  fetchOutcome : Except String FetchResult

/-- Model of `get_all_berthing_data_core`: every berthing-mode sensor with
an active stream contributes one entry; a raising fetch is caught and
replaced by a structured error record, leaving the other sensors'
entries intact. -/
def getAllBerthingDataCore (sensors : List AllDataInput) : List (String × AllDataEntry) :=
  (sensors.filter (·.streamActive)).map (fun inp =>
    match inp.fetchOutcome with
    | .ok r => (inp.sensorId, .ok r)
    | .error e => (inp.sensorId, .errorRecord inp.sensorId e))

/-! ### Berthing-mode status endpoint (`connection.py`) -/

/-- Result dictionary of `lidar_manager.get_berthing_mode_status` as read
by the endpoint. -/
structure ModeStatusResult where
  active : Bool
  sensorIds : List String
  connectedSensors : List String
  streamingSensors : List String
  message : String
deriving DecidableEq

/-- Response model `BerthingModeResponse` as filled by the endpoint. -/
structure BerthingModeResponse where
  berthingModeActive : Bool
  sensorIds : List String
  connectedSensors : List String
  streamingSensors : List String
  message : String
deriving DecidableEq

/-- Model of the `berthing_mode_status` endpoint: on a successful
`get_berthing_mode_status` call it returns the structured response; when
that call raises, the `except` branch only logs — it neither re-raises nor
returns, so the handler falls off the end and produces no response
(`none`). -/
def berthingModeStatus (outcome : Except String ModeStatusResult) :
    Option BerthingModeResponse :=
  match outcome with
  | .ok r => some
      { berthingModeActive := r.active, sensorIds := r.sensorIds,
        connectedSensors := r.connectedSensors,
        streamingSensors := r.streamingSensors, message := r.message }
  | .error _ => none

/-! ### History endpoint (`berthing_data.py`, `get_berthing_history`) -/

/-- One formatted entry of the `history` list returned by
`get_berthing_history`. -/
structure HistoryEntry where
  timestamp : ℚ
  distance : ℚ
  speed : ℚ
  speedMmS : ℚ
deriving DecidableEq, Inhabited

/-- Speed computed by `get_berthing_history` for entry `i` of the (already
truncated) history: `0.0` for the first entry, otherwise
`(distance - prev_distance) / dt` when `dt > 0` and `0.0` when
`dt <= 0`. -/
def entrySpeed (hist : List (ℚ × ℚ)) (i : ℕ) : ℚ :=
  if i = 0 then 0
  else
    let cur := hist.getD i (0, 0)
    let prev := hist.getD (i - 1) (0, 0)
    let dt := cur.1 - prev.1
    if 0 < dt then (cur.2 - prev.2) / dt else 0

/-- Formatted entry `i` built inside the loop of `get_berthing_history`. -/
def mkEntry (hist : List (ℚ × ℚ)) (i : ℕ) : HistoryEntry :=
  let cur := hist.getD i (0, 0)
  let s := entrySpeed hist i
  { timestamp := cur.1, distance := pyRound cur.2 3,
    speed := pyRound s 4, speedMmS := pyRound (s * 1000) 1 }

/-- The `history_data` list of `get_berthing_history` for a truncated
history. -/
def historyData (hist : List (ℚ × ℚ)) : List HistoryEntry :=
  (List.range hist.length).map (mkEntry hist)

/-- Python slice `l[s:]` with a possibly negative start index. -/
def pySliceFrom (l : List (ℚ × ℚ)) (s : ℤ) : List (ℚ × ℚ) :=
  l.drop (if s < 0 then ((l.length : ℤ) + s).toNat else s.toNat)

/-- Response of `get_berthing_history` (for a sensor that has a speed
calculator). -/
structure HistoryResult where
  history : List HistoryEntry
  count : ℕ
  oldestTimestamp : ℚ
  latestTimestamp : ℚ
deriving DecidableEq

/-- Truncation step of `get_berthing_history`: `if len(history) > limit:
history = history[-limit:]` on the recorded `distance_history` (a list of
`(timestamp, distance)` pairs) with the `limit` query parameter. -/
def truncHistory (hist : List (ℚ × ℚ)) (limit : ℤ) : List (ℚ × ℚ) :=
  if limit < (hist.length : ℤ) then pySliceFrom hist (-limit) else hist

/-- Model of `get_berthing_history` (for a sensor that has a speed
calculator): truncation, per-entry speed formatting, the count and the
first/last timestamps (`0` when the history is empty). -/
def getBerthingHistory (hist : List (ℚ × ℚ)) (limit : ℤ) : HistoryResult :=
  let h := truncHistory hist limit
  let data := historyData h
  { history := data
    count := data.length
    oldestTimestamp := match data with | [] => 0 | e :: _ => e.timestamp
    latestTimestamp := match data.getLast? with | none => 0 | some e => e.timestamp }

/-! ### Summary endpoint (`berthing_data.py`, `get_berthing_summary`) -/

/-- Per-sensor stats read by `get_berthing_summary` from
`berthing_mode_center_stats` (with the `.get` defaults applied): the
sensors of `berthing_mode_sensors` that have a stats entry, in iteration
order. -/
structure SensorStats where
  distance : ℚ
  speed : ℚ
  isMoving : Bool
deriving DecidableEq

/-- Python float value that is either finite or `float('inf')`, as used by
the `min_distance` accumulator of `get_berthing_summary`. -/
inductive XVal where
  | inf
  | fin (q : ℚ)
deriving DecidableEq

/-- Comparison `x < b` where `x` may be `float('inf')`. -/
def XVal.ltQ : XVal → ℚ → Bool
  | .inf, _ => false
  | .fin a, b => decide (a < b)

/-- Comparison `a < x` where `x` may be `float('inf')`. -/
def qLtX (a : ℚ) : XVal → Bool
  | .inf => true
  | .fin b => decide (a < b)

/-- Accumulator update of the summary loop body for one sensor:
`any_moving`, the `min_distance` update guarded by
`distance < min_distance and distance > 0`, and the `max_speed` update on
`abs(speed_mps)`. -/
def summaryStep (acc : Bool × XVal × ℚ) (st : SensorStats) : Bool × XVal × ℚ :=
  let anyMoving := acc.1 || st.isMoving
  let speed := |st.speed|
  let minD := if qLtX st.distance acc.2.1 && decide (0 < st.distance)
              then XVal.fin st.distance else acc.2.1
  let maxS := if acc.2.2 < speed then speed else acc.2.2
  (anyMoving, minD, maxS)

/-- The summary loop over all berthing-mode sensors with stats, starting
from `any_moving = False`, `min_distance = float('inf')`,
`max_speed = 0.0`. -/
def summaryFold (l : List SensorStats) : Bool × XVal × ℚ :=
  l.foldl summaryStep (false, XVal.inf, 0)

/-- Aggregate part of the response of `get_berthing_summary`. -/
structure BerthingSummary where
  berthingModeActive : Bool
  overallStatus : String
  minDistance : Option ℚ
  maxSpeedMmS : ℚ
deriving DecidableEq

/-- Model of `get_berthing_summary`: `active` is
`lidar_manager.berthing_mode_active`, `l` the stats of the berthing-mode
sensors present in `berthing_mode_center_stats`. The status if-chain and
the `min_distance`/`max_speed_mm_s` fields follow the source; the
per-sensor echo dictionary (display only) is not modelled. -/
def getBerthingSummary (active : Bool) (l : List SensorStats) : BerthingSummary :=
  let acc := summaryFold l
  let anyMoving := acc.1
  let minD := acc.2.1
  let maxS := acc.2.2
  let status :=
    if !active then "inactive"
    else if anyMoving then
      if minD.ltQ 5 then "final_approach"
      else if minD.ltQ 20 then "approaching"
      else "monitoring"
    else
      if minD.ltQ 1 then "berthed"
      else "standby"
  { berthingModeActive := active
    overallStatus := status
    minDistance := match minD with | .inf => none | .fin q => some (pyRound q 3)
    maxSpeedMmS := pyRound (maxS * 1000) 1 }

/-! ### Specification-side definitions (for refinement statements)

These follow the words of the specification, to be compared with the
definitions above. -/

/-- Specification's `min_distance`: the minimum over the strictly positive
distances only. -/
def minPosDistance (l : List SensorStats) : Option ℚ :=
  ((l.filter (fun st => decide (0 < st.distance))).map (·.distance)).min?

/-- Specification's `any_moving`: OR of the per-sensor moving flags. -/
def anyMovingSpec (l : List SensorStats) : Bool :=
  l.any (·.isMoving)

/-! ## Claim theorems -/

/-- C3: a received datagram is recognized as a start command iff it is at
least 11 bytes long and its first 11 bytes equal `_CMD_DATA_START` (and
then the listener invokes the start-streaming transition), as a stop
command iff its first 11 bytes equal `_CMD_DATA_STOP` (and then the
listener invokes the stop-streaming transition), and otherwise it is
ignored without error, regardless of any bytes after the 11th. -/
theorem command_matching (data : List ℕ) :
    (classifyCommand data = .start ↔ 11 ≤ data.length ∧ data.take 11 = cmdDataStart) ∧
    (classifyCommand data = .stop ↔ data.take 11 = cmdDataStop) ∧
    ((data.take 11 ≠ cmdDataStart ∧ data.take 11 ≠ cmdDataStop) →
      classifyCommand data = .ignore) ∧
    (∀ s : SimState, classifyCommand data = .start → commandStep s data = dataStart s) ∧
    (∀ s : SimState, classifyCommand data = .stop → commandStep s data = dataStop s) ∧
    (∀ s : SimState, classifyCommand data = .ignore → commandStep s data = s) := by
  have hs : cmdDataStart.take 11 = cmdDataStart := rfl
  have ht : cmdDataStop.take 11 = cmdDataStop := rfl
  have hne : cmdDataStart ≠ cmdDataStop := by decide
  have hlen : data.take 11 = cmdDataStop → 11 ≤ data.length := by
    intro h
    have h2 := congrArg List.length h
    simp only [List.length_take, cmdDataStop, List.length_cons, List.length_nil] at h2
    omega
  have key : (classifyCommand data = .start ↔ 11 ≤ data.length ∧ data.take 11 = cmdDataStart) ∧
      (classifyCommand data = .stop ↔ data.take 11 = cmdDataStop) ∧
      ((data.take 11 ≠ cmdDataStart ∧ data.take 11 ≠ cmdDataStop) →
        classifyCommand data = .ignore) := by
    unfold classifyCommand
    rw [hs, ht]
    split_ifs with h1 h2
    · obtain ⟨hl, he⟩ := h1
      refine ⟨iff_of_true rfl ⟨hl, he⟩, ?_, ?_⟩
      · exact iff_of_false (by decide) (fun hstop => hne (he.symm.trans hstop))
      · exact fun hcon => absurd he hcon.1
    · obtain ⟨hl, he⟩ := h2
      refine ⟨?_, iff_of_true rfl he, fun hcon => absurd he hcon.2⟩
      exact iff_of_false (by decide) (fun hcon => h1 ⟨hcon.1, hcon.2⟩)
    · refine ⟨iff_of_false (by decide) h1, ?_, fun _ => rfl⟩
      exact iff_of_false (by decide) (fun hstop => h2 ⟨hlen hstop, hstop⟩)
  refine ⟨key.1, key.2.1, key.2.2, ?_, ?_, ?_⟩ <;>
    intro s hc <;> simp [commandStep, hc]

/-- Witness for C3 at concrete datagrams: the start constant followed by a
trailing byte starts streaming, and a short unrelated datagram is
ignored. -/
theorem command_matching_witness :
    classifyCommand (cmdDataStart ++ [255]) = .start ∧
    commandStep initSimState (cmdDataStart ++ [255]) = dataStart initSimState ∧
    classifyCommand [1, 2, 3] = .ignore := by
  have h := command_matching (cmdDataStart ++ [255])
  have h3 := command_matching [1, 2, 3]
  exact ⟨h.1.mpr (by decide), h.2.2.2.1 initSimState (h.1.mpr (by decide)),
    h3.2.2.1 (by decide)⟩

/-- C4: for every packet, the frame built by `_create_fake_packet` is the
18-byte little-endian header followed by exactly 100 point records of 13
bytes each, for a total of 18 + 100 × 13 = 1318 bytes, with no in-band
point count field. -/
theorem fake_packet_layout (ts : ℕ) (pts : ℕ → ℤ × ℤ × ℤ × ℕ) :
    createFakePacket ts pts =
      fakeHeader ts ++ (List.range 100).flatMap (fun i => packPoint (pts i)) ∧
    (fakeHeader ts).length = 18 ∧
    (∀ p : ℤ × ℤ × ℤ × ℕ, (packPoint p).length = 13) ∧
    ((List.range 100).flatMap (fun i => packPoint (pts i))).length = 100 * 13 ∧
    (createFakePacket ts pts).length = 1318 := by
  have hp : ∀ p : ℤ × ℤ × ℤ × ℕ, (packPoint p).length = 13 := by
    intro p
    simp [packPoint, packI32, leBytes]
  have hh : (fakeHeader ts).length = 18 := by
    simp [fakeHeader, leBytes]
  have hb : ((List.range 100).flatMap (fun i => packPoint (pts i))).length = 100 * 13 := by
    rw [List.length_flatMap]
    have : (List.range 100).map (List.length ∘ fun i => packPoint (pts i)) =
        (List.range 100).map (fun _ => 13) := by
      apply List.map_congr_left
      intro i _
      exact hp (pts i)
    rw [this, List.map_const', List.sum_replicate, List.length_range, smul_eq_mul]
  refine ⟨rfl, hh, hp, hb, ?_⟩
  simp only [createFakePacket, List.length_append, hh, hb]

/-- C5: the per-sensor view produced by `fetch_berthing_data_for_sensor`
for an active sensor has direction `stationary` when not moving,
`approaching` when moving with negative speed, `departing` when moving
with positive speed, and `lateral` when moving with speed exactly
zero. -/
theorem fetch_direction (sid : String) (ts : ℚ) (cs : CenterStats) :
    ∃ v : SensorView, fetchBerthingDataForSensor sid true true ts cs = .active v ∧
      v.direction = (if cs.isVesselMoving = false then "stationary"
        else if cs.speedMps < 0 then "approaching"
        else if 0 < cs.speedMps then "departing"
        else "lateral") := by
  refine ⟨_, rfl, ?_⟩
  cases h : cs.isVesselMoving <;> simp [h]

/-- Session state of a connected simulator that is already streaming, with
one data thread and one command thread spawned. -/
def streamingState : SimState :=
  { isConnected := true, isData := true, running := true, commandRunning := true,
    dataSocketOpen := true, cmdSocketOpen := true,
    dataThreadsSpawned := 1, commandThreadsSpawned := 1 }

/-- Counterexample to C6: invoking `dataStart_RT_B` while already
streaming is not a rejected no-op — the session state changes and an
additional data-producing thread is spawned. -/
theorem dataStart_while_streaming_not_noop :
    dataStart streamingState ≠ streamingState ∧
    (dataStart streamingState).dataThreadsSpawned =
      streamingState.dataThreadsSpawned + 1 := by
  decide

/-- C6 (amended): `dataStart_RT_B` checks only `_isConnected`: invoked
while not connected it returns with no side effect, while from any
connected state — including one that is already streaming — it sets the
streaming flags and spawns an additional data-producing thread, reporting
no state error. -/
theorem dataStart_spawns_thread (s : SimState) :
    (s.isConnected = false → dataStart s = s) ∧
    (s.isConnected = true →
      dataStart s = { s with isData := true, running := true,
                             dataThreadsSpawned := s.dataThreadsSpawned + 1 }) := by
  constructor
  · intro h
    simp [dataStart, h]
  · intro h
    simp [dataStart, h]

/-- Witness for the amended C6: a fresh (disconnected) session is left
unchanged, while the concrete already-streaming state gains a second data
thread. -/
theorem dataStart_spawns_thread_witness :
    dataStart initSimState = initSimState ∧
    dataStart streamingState =
      { streamingState with isData := true, running := true,
                            dataThreadsSpawned := streamingState.dataThreadsSpawned + 1 } :=
  ⟨(dataStart_spawns_thread initSimState).1 rfl,
   (dataStart_spawns_thread streamingState).2 rfl⟩

/-- Counterexample to C7: when the data-socket bind fails on a fresh
session, `connect` returns `0` but the two sockets created during the
call are left open, not closed. -/
theorem connect_bind_failure_leaks_sockets :
    (connect initSimState false true).1 = 0 ∧
    (connect initSimState false true).2.dataSocketOpen = true ∧
    (connect initSimState false true).2.cmdSocketOpen = true := by
  decide

/-- C7 (amended): on any bind failure `connect` returns `0`, leaves
`_isConnected` unchanged (so a fresh session stays disconnected) and
starts no listener thread, but the two sockets opened during the call
remain open rather than being closed before returning. -/
theorem connect_bind_failure (s : SimState) (bd bc : Bool)
    (h : ¬(bd = true ∧ bc = true)) :
    (connect s bd bc).1 = 0 ∧
    (connect s bd bc).2.isConnected = s.isConnected ∧
    (connect s bd bc).2.commandThreadsSpawned = s.commandThreadsSpawned ∧
    (connect s bd bc).2.dataSocketOpen = true ∧
    (connect s bd bc).2.cmdSocketOpen = true := by
  have hb : (bd && bc) = false := by
    cases bd <;> cases bc <;> simp_all
  simp [connect, hb]

/-- Witness for the amended C7 at a fresh session with a failing data
bind. -/
theorem connect_bind_failure_witness :
    (connect initSimState false true).1 = 0 ∧
    (connect initSimState false true).2.isConnected = initSimState.isConnected ∧
    (connect initSimState false true).2.commandThreadsSpawned =
      initSimState.commandThreadsSpawned ∧
    (connect initSimState false true).2.dataSocketOpen = true ∧
    (connect initSimState false true).2.cmdSocketOpen = true :=
  connect_bind_failure initSimState false true (by decide)

/-- C9 (code bug): when `lidar_manager.get_berthing_mode_status` raises,
the `berthing_mode_status` endpoint's `except` branch only logs — it
neither raises an `HTTPException` nor returns a value, so the handler
produces no structured response at all (`none`), unlike every sibling
endpoint in `connection.py`. -/
theorem berthingModeStatus_error_no_response :
    berthingModeStatus (Except.error "boom") = none := rfl

/-- Per-sensor error isolation of `get_all_berthing_data_core` (the half
of C9 that the code does satisfy): a raising fetch yields a structured
error record for that sensor while the entries of the other streaming
sensors are still produced. -/
theorem getAllBerthingData_error_isolated (sensors : List AllDataInput) :
    (getAllBerthingDataCore sensors).length =
      (sensors.filter (·.streamActive)).length ∧
    ∀ inp ∈ sensors, inp.streamActive = true →
      (∀ e, inp.fetchOutcome = .error e →
        (inp.sensorId, AllDataEntry.errorRecord inp.sensorId e) ∈
          getAllBerthingDataCore sensors) ∧
      (∀ r, inp.fetchOutcome = .ok r →
        (inp.sensorId, AllDataEntry.ok r) ∈ getAllBerthingDataCore sensors) := by
  constructor
  · simp [getAllBerthingDataCore]
  · intro inp hmem hact
    have hmemf : inp ∈ sensors.filter (·.streamActive) :=
      List.mem_filter.mpr ⟨hmem, hact⟩
    constructor
    · intro e he
      refine List.mem_map.mpr ⟨inp, hmemf, ?_⟩
      rw [he]
    · intro r hr
      refine List.mem_map.mpr ⟨inp, hmemf, ?_⟩
      rw [hr]

/-- The `min_distance` component of one summary loop iteration. -/
def minStep (x : XVal) (st : SensorStats) : XVal :=
  if qLtX st.distance x && decide (0 < st.distance) then XVal.fin st.distance else x

/-- The `min_distance` update over a list of plain distances. -/
def minQStep (x : XVal) (d : ℚ) : XVal :=
  if qLtX d x then XVal.fin d else x

theorem summaryStep_eq (b : Bool) (x : XVal) (s : ℚ) (st : SensorStats) :
    summaryStep (b, x, s) st =
      (b || st.isMoving, minStep x st, if s < |st.speed| then |st.speed| else s) := rfl

theorem summaryFold_fst (l : List SensorStats) :
    ∀ b x s, (l.foldl summaryStep (b, x, s)).1 = (b || l.any (·.isMoving)) := by
  induction l with
  | nil => intro b x s; simp
  | cons hd tl ih =>
    intro b x s
    simp only [List.foldl_cons, List.any_cons, summaryStep_eq, ih, Bool.or_assoc]

theorem summaryFold_minD (l : List SensorStats) :
    ∀ b x s, (l.foldl summaryStep (b, x, s)).2.1 = l.foldl minStep x := by
  induction l with
  | nil => intro b x s; rfl
  | cons hd tl ih =>
    intro b x s
    simp only [List.foldl_cons, summaryStep_eq, ih]

theorem minStep_foldl_filter (l : List SensorStats) :
    ∀ x, l.foldl minStep x =
      (l.filter (fun st => decide (0 < st.distance))).foldl minStep x := by
  induction l with
  | nil => intro x; rfl
  | cons hd tl ih =>
    intro x
    by_cases h : 0 < hd.distance
    · simp only [List.foldl_cons, List.filter_cons]
      rw [if_pos (by simpa using h)]
      simp only [List.foldl_cons]
      exact ih (minStep x hd)
    · have hstep : minStep x hd = x := by simp [minStep, h]
      simp only [List.foldl_cons, List.filter_cons]
      rw [if_neg (by simpa using h), hstep]
      exact ih x

theorem minStep_eq_minQStep (l : List SensorStats)
    (hpos : ∀ st ∈ l, 0 < st.distance) :
    ∀ x, l.foldl minStep x = (l.map (·.distance)).foldl minQStep x := by
  induction l with
  | nil => intro x; rfl
  | cons hd tl ih =>
    intro x
    have hhd : 0 < hd.distance := hpos hd (by simp)
    have hstep : minStep x hd = minQStep x hd.distance := by
      simp [minStep, minQStep, hhd]
    simp only [List.foldl_cons, List.map_cons, hstep]
    exact ih (fun st h => hpos st (by simp [h])) _

theorem minQStep_foldl_fin (ds : List ℚ) :
    ∀ a, ds.foldl minQStep (.fin a) = .fin (ds.foldl min a) := by
  induction ds with
  | nil => intro a; rfl
  | cons d ds ih =>
    intro a
    have hstep : minQStep (.fin a) d = .fin (min a d) := by
      rcases lt_or_ge d a with h | h
      · simp [minQStep, qLtX, h, min_def, le_of_lt h, not_le.mpr h]
      · simp [minQStep, qLtX, not_lt.mpr h, min_def, h]
    simp only [List.foldl_cons, hstep, ih]

theorem summaryFold_min_spec (l : List SensorStats) :
    (summaryFold l).2.1 =
      (match minPosDistance l with
       | none => XVal.inf
       | some m => XVal.fin m) := by
  rw [summaryFold, summaryFold_minD, minStep_foldl_filter]
  have hpos : ∀ st ∈ l.filter (fun st => decide (0 < st.distance)), 0 < st.distance := by
    intro st h
    simpa using (List.mem_filter.mp h).2
  rw [minStep_eq_minQStep _ hpos]
  rcases hd : (l.filter (fun st => decide (0 < st.distance))).map (·.distance) with
    _ | ⟨d, ds⟩
  · simp [minPosDistance, hd]
  · have h1 : minPosDistance l = some (ds.foldl min d) := by
      rw [minPosDistance, hd]
      rfl
    rw [h1, hd]
    simp only [List.foldl_cons]
    rw [show minQStep .inf d = .fin d from rfl, minQStep_foldl_fin]

theorem summaryFold_fst_spec (l : List SensorStats) :
    (summaryFold l).1 = anyMovingSpec l := by
  rw [summaryFold, summaryFold_fst]
  simp [anyMovingSpec]

/-- C1: with berthing mode inactive the overall status of
`get_berthing_summary` is `inactive` regardless of the per-sensor tuples;
with berthing mode active and at least one sensor reporting a positive
distance, the overall status is classified from the minimum positive
distance and the OR of the moving flags exactly as the specification's
table states, and the reported `min_distance` is that minimum. -/
theorem summary_classification (active : Bool) (l : List SensorStats) :
    (active = false → (getBerthingSummary active l).overallStatus = "inactive") ∧
    (active = true → (∃ st ∈ l, 0 < st.distance) →
      ∃ m : ℚ, minPosDistance l = some m ∧
        (getBerthingSummary active l).minDistance = some (pyRound m 3) ∧
        (getBerthingSummary active l).overallStatus =
          (if anyMovingSpec l = true then
             if m < 5 then "final_approach"
             else if m < 20 then "approaching"
             else "monitoring"
           else
             if m < 1 then "berthed"
             else "standby")) := by
  constructor
  · intro hact
    subst hact
    simp [getBerthingSummary]
  · intro hact hpos
    obtain ⟨st0, hmem, h0⟩ := hpos
    obtain ⟨m, hm⟩ : ∃ m, minPosDistance l = some m := by
      rcases hmd : minPosDistance l with _ | m
      · rw [minPosDistance, List.min?_eq_none_iff, List.map_eq_nil_iff] at hmd
        have : st0 ∈ l.filter (fun st => decide (0 < st.distance)) :=
          List.mem_filter.mpr ⟨hmem, by simpa⟩
        rw [hmd] at this
        exact absurd this (List.not_mem_nil st0)
      · exact ⟨m, rfl⟩
    have hmin := summaryFold_min_spec l
    rw [hm] at hmin
    have hfst := summaryFold_fst_spec l
    subst hact
    refine ⟨m, hm, ?_, ?_⟩
    · simp only [getBerthingSummary, hmin]
    · rcases ham : anyMovingSpec l with _ | _ <;>
        simp [getBerthingSummary, hmin, hfst, ham, XVal.ltQ]

/-- Witness for C1: the specification's two-sensor scenario — one sensor
with distance 0 and speed 0, the other at 15.0 m moving at +0.1 m/s —
yields `min_distance = 15.0` and status `approaching` when berthing mode
is active, and status `inactive` for the same tuples when it is not. -/
theorem summary_classification_witness :
    (getBerthingSummary false [⟨0, 0, false⟩, ⟨15, 1/10, true⟩]).overallStatus =
      "inactive" ∧
    (getBerthingSummary true [⟨0, 0, false⟩, ⟨15, 1/10, true⟩]).overallStatus =
      "approaching" ∧
    (getBerthingSummary true [⟨0, 0, false⟩, ⟨15, 1/10, true⟩]).minDistance =
      some 15 := by
  refine ⟨(summary_classification false [⟨0, 0, false⟩, ⟨15, 1/10, true⟩]).1 rfl, ?_⟩
  obtain ⟨m, hm, hmin, hstat⟩ :=
    (summary_classification true [⟨0, 0, false⟩, ⟨15, 1/10, true⟩]).2 rfl
      ⟨⟨15, 1/10, true⟩, by simp, by norm_num⟩
  have h15 : minPosDistance [⟨0, 0, false⟩, ⟨15, 1/10, true⟩] = some 15 := by decide
  rw [h15] at hm
  obtain rfl : m = 15 := (Option.some_inj.mp hm).symm
  constructor
  · rw [hstat]
    norm_num [anyMovingSpec]
  · rw [hmin]
    norm_num [pyRound, roundHalfEven]

/-- Counterexample to C2: with berthing mode active, a single sensor
reporting distance 0 while flagged as moving gives overall status
`monitoring`, not `standby` (the `min_distance` does stay absent). -/
theorem summary_no_distance_moving_monitoring :
    (getBerthingSummary true [⟨0, 0, true⟩]).overallStatus = "monitoring" ∧
    (getBerthingSummary true [⟨0, 0, true⟩]).overallStatus ≠ "standby" ∧
    (getBerthingSummary true [⟨0, 0, true⟩]).minDistance = none := by
  decide

/-- C2 (amended): with berthing mode active and no sensor reporting a
strictly positive distance, the reported `min_distance` is absent
(`None`), and the overall status is `standby` when no sensor is flagged
as moving but `monitoring` when some sensor is (the `float('inf')`
minimum falls through every numeric comparison of the moving branch). -/
theorem summary_no_distance (active : Bool) (l : List SensorStats)
    (hact : active = true) (hpos : ∀ st ∈ l, ¬ 0 < st.distance) :
    (getBerthingSummary active l).minDistance = none ∧
    (getBerthingSummary active l).overallStatus =
      (if anyMovingSpec l = true then "monitoring" else "standby") := by
  have hnone : minPosDistance l = none := by
    rw [minPosDistance, List.min?_eq_none_iff, List.map_eq_nil_iff,
      List.filter_eq_nil_iff]
    intro st hmem
    simpa using hpos st hmem
  have hmin := summaryFold_min_spec l
  rw [hnone] at hmin
  have hfst := summaryFold_fst_spec l
  constructor
  · simp only [getBerthingSummary, hmin]
  · simp only [getBerthingSummary, hmin, hfst, hact, Bool.not_true, Bool.false_eq_true,
      if_false, XVal.ltQ]

/-- Witness for the amended C2 at a single moving sensor with no valid
distance reading. -/
theorem summary_no_distance_witness :
    (getBerthingSummary true [⟨0, 0, true⟩]).minDistance = none ∧
    (getBerthingSummary true [⟨0, 0, true⟩]).overallStatus =
      (if anyMovingSpec [(⟨0, 0, true⟩ : SensorStats)] = true
       then "monitoring" else "standby") :=
  summary_no_distance true [⟨0, 0, true⟩] rfl (by decide)

theorem getBerthingHistory_history (hist : List (ℚ × ℚ)) (limit : ℤ) :
    (getBerthingHistory hist limit).history = historyData (truncHistory hist limit) := rfl

theorem getBerthingHistory_count (hist : List (ℚ × ℚ)) (limit : ℤ) :
    (getBerthingHistory hist limit).count =
      (historyData (truncHistory hist limit)).length := rfl

theorem historyData_length (h : List (ℚ × ℚ)) :
    (historyData h).length = h.length := by
  simp [historyData]

theorem historyData_getD (h : List (ℚ × ℚ)) (i : ℕ) (hi : i < h.length) :
    (historyData h).getD i default = mkEntry h i := by
  rw [historyData, List.getD_eq_getElem _ _ (by simpa using hi),
    List.getElem_map, List.getElem_range]

theorem pyRound_zero (n : ℕ) : pyRound 0 n = 0 := by
  norm_num [pyRound, roundHalfEven]

theorem entrySpeed_zero (h : List (ℚ × ℚ)) : entrySpeed h 0 = 0 := rfl

theorem mkEntry_speed (h : List (ℚ × ℚ)) (i : ℕ) :
    (mkEntry h i).speed = pyRound (entrySpeed h i) 4 := rfl

theorem historyData_mem (h : List (ℚ × ℚ)) (e : HistoryEntry)
    (hmem : e ∈ historyData h) : ∃ i < h.length, e = mkEntry h i := by
  rw [historyData] at hmem
  obtain ⟨i, hi, he⟩ := List.mem_map.mp hmem
  exact ⟨i, by simpa using List.mem_range.mp hi, he.symm⟩

theorem truncHistory_length_le (hist : List (ℚ × ℚ)) (limit : ℤ) :
    (truncHistory hist limit).length ≤ hist.length := by
  unfold truncHistory pySliceFrom
  split_ifs <;> simp [List.length_drop]

/-- C8: in `get_berthing_history`, the first returned entry's speed is
`0.0`, each later entry's speed is `(d_i - d_(i-1)) / (t_i - t_(i-1))`
when the timestamp difference is positive and `0.0` otherwise (so no
division by zero happens for identical consecutive timestamps), and a
history of at most one sample yields no nonzero speed. Displayed speeds
are the computed speeds rounded to 4 decimal digits. -/
theorem history_speed_guard (hist : List (ℚ × ℚ)) (limit : ℤ) :
    (∀ e, (getBerthingHistory hist limit).history.head? = some e → e.speed = 0) ∧
    (∀ i, 0 < i →
      entrySpeed (truncHistory hist limit) i =
        (if 0 < ((truncHistory hist limit).getD i (0, 0)).1 -
              ((truncHistory hist limit).getD (i - 1) (0, 0)).1
         then (((truncHistory hist limit).getD i (0, 0)).2 -
               ((truncHistory hist limit).getD (i - 1) (0, 0)).2) /
              (((truncHistory hist limit).getD i (0, 0)).1 -
               ((truncHistory hist limit).getD (i - 1) (0, 0)).1)
         else 0)) ∧
    (∀ i, i < (getBerthingHistory hist limit).history.length →
      ((getBerthingHistory hist limit).history.getD i default).speed =
        pyRound (entrySpeed (truncHistory hist limit) i) 4) ∧
    (hist.length ≤ 1 → ∀ e ∈ (getBerthingHistory hist limit).history, e.speed = 0) := by
  refine ⟨?_, ?_, ?_, ?_⟩
  · intro e he
    rw [getBerthingHistory_history] at he
    have hne : historyData (truncHistory hist limit) ≠ [] := by
      intro hnil
      rw [hnil] at he
      simp at he
    have hl : 0 < (truncHistory hist limit).length := by
      rw [← historyData_length]
      exact List.length_pos.mpr hne
    rw [List.head?_eq_head hne] at he
    have hh : (historyData (truncHistory hist limit)).head hne =
        (historyData (truncHistory hist limit)).getD 0 default := by
      rw [List.getD_eq_getElem _ _ (by simpa [historyData_length] using hl),
        List.head_eq_getElem]
    obtain rfl : (historyData (truncHistory hist limit)).head hne = e :=
      Option.some_inj.mp he
    rw [hh, historyData_getD _ 0 hl, mkEntry_speed, entrySpeed_zero, pyRound_zero]
  · intro i hi
    rw [entrySpeed, if_neg (Nat.pos_iff_ne_zero.mp hi)]
  · intro i hi
    rw [getBerthingHistory_history] at hi ⊢
    rw [historyData_getD _ i (by simpa [historyData_length] using hi), mkEntry_speed]
  · intro hle e hmem
    rw [getBerthingHistory_history] at hmem
    obtain ⟨i, hi, rfl⟩ := historyData_mem _ e hmem
    have : i = 0 := by
      have := truncHistory_length_le hist limit
      omega
    subst this
    rw [mkEntry_speed, entrySpeed_zero, pyRound_zero]

/-- Witness for C8 at a concrete history containing two samples with
identical timestamps: the zero-duration step gets speed `0`, the next
step gets the difference quotient `(5 - 9) / (3 - 1) = -2`. -/
theorem history_speed_guard_witness :
    entrySpeed (truncHistory [(1, 10), (1, 9), (3, 5)] 100) 1 = 0 ∧
    entrySpeed (truncHistory [(1, 10), (1, 9), (3, 5)] 100) 2 = -2 ∧
    ((getBerthingHistory [(1, 10), (1, 9), (3, 5)] 100).history.getD 0 default).speed =
      pyRound (entrySpeed (truncHistory [(1, 10), (1, 9), (3, 5)] 100) 0) 4 := by
  have h := history_speed_guard [(1, 10), (1, 9), (3, 5)] 100
  refine ⟨?_, ?_, h.2.2.1 0 (by decide)⟩
  · rw [h.2.1 1 (by decide)]
    norm_num [truncHistory, pySliceFrom, List.getD]
  · rw [h.2.1 2 (by decide)]
    norm_num [truncHistory, pySliceFrom, List.getD]

theorem truncHistory_pos (hist : List (ℚ × ℚ)) (limit : ℤ) (h : 0 < limit) :
    truncHistory hist limit =
      hist.drop (hist.length - min limit.toNat hist.length) := by
  unfold truncHistory pySliceFrom
  split_ifs with hc h2
  · congr 1
    omega
  · omega
  · have heq : hist.length - min limit.toNat hist.length = 0 := by omega
    rw [heq, List.drop_zero]

theorem historyData_map_timestamp (h : List (ℚ × ℚ)) :
    (historyData h).map (fun e => e.timestamp) = h.map Prod.fst := by
  apply List.ext_getElem
  · simp [historyData]
  · intro i h1 h2
    have hi : i < h.length := by simpa using h2
    simp only [List.getElem_map, historyData, List.getElem_range, mkEntry,
      List.getD_eq_getElem _ _ hi]

theorem historyData_map_distance (h : List (ℚ × ℚ)) :
    (historyData h).map (fun e => e.distance) = h.map (fun p => pyRound p.2 3) := by
  apply List.ext_getElem
  · simp [historyData]
  · intro i h1 h2
    have hi : i < h.length := by simpa using h2
    simp only [List.getElem_map, historyData, List.getElem_range, mkEntry,
      List.getD_eq_getElem _ _ hi]

theorem headMatch_eq_headD (l : List HistoryEntry) :
    (match l with | [] => (0 : ℚ) | e :: _ => e.timestamp) =
      (l.map (fun e => e.timestamp)).headD 0 := by
  cases l <;> rfl

theorem lastMatch_eq_getLastD (l : List HistoryEntry) :
    (match l.getLast? with | none => (0 : ℚ) | some e => e.timestamp) =
      (l.map (fun e => e.timestamp)).getLastD 0 := by
  rw [List.getLastD_eq_getLast?, List.getLast?_map]
  cases l.getLast? <;> rfl

/-- C10: for every history of `n` samples and positive limit `L`,
`get_berthing_history` returns exactly `min L n` entries — the most
recent `min L n` samples in their original order (same timestamps, with
the recorded distances rounded to 3 digits) — with `count` equal to the
number of entries and the oldest/latest timestamps taken from the first
and last returned entries, or `0` when the history is empty. -/
theorem history_limit_bound (hist : List (ℚ × ℚ)) (limit : ℤ) (h : 0 < limit) :
    (getBerthingHistory hist limit).count = min limit.toNat hist.length ∧
    (getBerthingHistory hist limit).history.length = min limit.toNat hist.length ∧
    (getBerthingHistory hist limit).history.map (fun e => e.timestamp) =
      (hist.drop (hist.length - min limit.toNat hist.length)).map Prod.fst ∧
    (getBerthingHistory hist limit).history.map (fun e => e.distance) =
      (hist.drop (hist.length - min limit.toNat hist.length)).map
        (fun p => pyRound p.2 3) ∧
    (getBerthingHistory hist limit).oldestTimestamp =
      ((hist.drop (hist.length - min limit.toNat hist.length)).map Prod.fst).headD 0 ∧
    (getBerthingHistory hist limit).latestTimestamp =
      ((hist.drop (hist.length - min limit.toNat hist.length)).map Prod.fst).getLastD 0 := by
  have htr := truncHistory_pos hist limit h
  have hlen : (historyData (truncHistory hist limit)).length =
      min limit.toNat hist.length := by
    rw [historyData_length, htr, List.length_drop]
    omega
  refine ⟨?_, ?_, ?_, ?_, ?_, ?_⟩
  · rw [getBerthingHistory_count, hlen]
  · rw [getBerthingHistory_history, hlen]
  · rw [getBerthingHistory_history, historyData_map_timestamp, htr]
  · rw [getBerthingHistory_history, historyData_map_distance, htr]
  · show (match historyData (truncHistory hist limit) with
      | [] => (0 : ℚ) | e :: _ => e.timestamp) = _
    rw [headMatch_eq_headD, historyData_map_timestamp, htr]
  · show (match (historyData (truncHistory hist limit)).getLast? with
      | none => (0 : ℚ) | some e => e.timestamp) = _
    rw [lastMatch_eq_getLastD, historyData_map_timestamp, htr]

/-- Witness for C10 at a three-sample history with limit 2: the last two
samples are returned in order and the boundary timestamps match. -/
theorem history_limit_bound_witness :
    (getBerthingHistory [(1, 10), (2, 9), (3, 8)] 2).count = 2 ∧
    (getBerthingHistory [(1, 10), (2, 9), (3, 8)] 2).history.map
      (fun e => e.timestamp) = [2, 3] ∧
    (getBerthingHistory [(1, 10), (2, 9), (3, 8)] 2).oldestTimestamp = 2 ∧
    (getBerthingHistory [(1, 10), (2, 9), (3, 8)] 2).latestTimestamp = 3 := by
  have h := history_limit_bound [(1, 10), (2, 9), (3, 8)] 2 (by decide)
  refine ⟨?_, ?_, ?_, ?_⟩
  · rw [h.1]
    decide
  · rw [h.2.2.1]
    decide
  · rw [h.2.2.2.2.1]
    decide
  · rw [h.2.2.2.2.2]
    decide

end LidarService
